import Mathlib

/-!
Shallow embedding of the place-resolution logic of the hidden-gems app:
the `App` component (global search, suggestion selection, area discovery,
visited-toggle) and the geocoding helpers of `AddLocationModal`.

JavaScript numbers that may be `NaN` are modelled as `Option ℚ` with
`none` standing for `NaN`; JSON numbers coming off the wire are finite,
but `parseFloat` can produce `NaN`.  Remote services are modelled as an
environment record consulted by the (otherwise pure) handlers, and each
handler returns an outcome record listing the state updates it performed,
the user-visible alerts, the console logs and the trace of remote calls.
-/

/-- A JavaScript number: `none` is `NaN`, `some q` a finite value. -/
abbrev JNum := Option ℚ

/-- Structure `Coordinate` from `types.ts`. -/
structure Coordinate where
  lat : JNum
  lng : JNum
deriving DecidableEq, Repr

/-- Structure `Location` from `types.ts`.  `category` and `placeType` are kept as
strings: at runtime the values flow in from remote JSON unchecked. -/
structure Location where
  id : String
  name : String
  coordinate : Coordinate
  description : String
  category : String
  placeType : String
  image : String
  address : Option String := none
  visited : Option Bool := none
  rating : Option ℚ := none
deriving DecidableEq, Repr

/-- JS truthiness of a possibly-undefined number (`undefined`, `NaN`
and `0` are falsy). -/
def jsTruthyNum : Option JNum → Bool
  | some (some q) => q ≠ 0
  | _ => false

/-- JS truthiness of a possibly-undefined string (`undefined` and `""`
are falsy). -/
def jsTruthyStr : Option String → Bool
  | some s => s ≠ ""
  | none => false

/-- JS `a || b` where `a` is a possibly-undefined string and `b` a string. -/
def jsOrStr (a : Option String) (b : String) : String :=
  if jsTruthyStr a then a.getD "" else b

/-- JS `a || b` on possibly-undefined strings. -/
def jsOrOpt (a b : Option String) : Option String :=
  if jsTruthyStr a then a else b

/-- JS string coercion of a possibly-undefined string (`undefined`
prints as `"undefined"`, as in `undefined + " Singapore"`). -/
def jsStr (a : Option String) : String := a.getD "undefined"

/-- ASCII lower-casing of one character (the fragment of JS
`toLowerCase` the app's data exercises). -/
def lowerChar (c : Char) : Char :=
  if 'A' ≤ c ∧ c ≤ 'Z' then Char.ofNat (c.toNat + 32) else c

/-- JS `s.toLowerCase()`. -/
def strToLower (s : String) : String := String.mk (s.data.map lowerChar)

/-- Whitespace for `trim`. -/
def isWhite (c : Char) : Bool := c == ' ' || c == '\t' || c == '\n' || c == '\r'

/-- JS `s.trim()`. -/
def jsTrim (s : String) : String :=
  String.mk (((s.data.dropWhile isWhite).reverse.dropWhile isWhite).reverse)

/-- Substring test underlying JS `String.prototype.includes`. -/
def containsSub (sub : List Char) : List Char → Bool
  | [] => sub.isEmpty
  | c :: t => sub.isPrefixOf (c :: t) || containsSub sub t

/-- JS `s.includes(sub)`. -/
def jsIncludes (s sub : String) : Bool := containsSub sub.data s.data

/-- Digits-to-number accumulator. -/
def digitsToNat (cs : List Char) : Nat :=
  cs.foldl (fun n c => 10 * n + (c.toNat - 48)) 0

/-- JS `parseFloat`, modelled on plain decimal numerals: optional sign,
integer digits, optional fractional digits; `NaN` (`none`) when the
string does not start with a numeral.  (Exponents, `Infinity` and
leading whitespace are outside the fragment the app ever feeds it.) -/
def parseFloat (s : String) : JNum :=
  let core : List Char → JNum := fun cs =>
    let intPart := cs.takeWhile Char.isDigit
    if intPart.isEmpty then none
    else
      let frac :=
        match cs.dropWhile Char.isDigit with
        | '.' :: r => r.takeWhile Char.isDigit
        | _ => []
      if frac.isEmpty then some ((digitsToNat intPart : ℚ))
      else some ((digitsToNat intPart : ℚ) +
        (digitsToNat frac : ℚ) / (10 : ℚ) ^ frac.length)
  match s.data with
  | '-' :: cs => (core cs).map Neg.neg
  | '+' :: cs => core cs
  | cs => core cs

/-- Leftmost match of the regex `\d{6}`: the first window of six
consecutive digit characters. -/
def findSixDigits : List Char → Option (List Char)
  | [] => none
  | c :: cs =>
    if ((c :: cs).take 6).length = 6 ∧ ((c :: cs).take 6).all Char.isDigit
    then some ((c :: cs).take 6)
    else findSixDigits cs

/-- Model of `address.match(/\d{6}/)` reduced to its matched text. -/
def extractPostal (s : String) : Option String :=
  (findSixDigits s.data).map String.mk

/-- Parsed `coordinates` object of the AI JSON (fields may be absent,
values may be `NaN`). -/
structure AICoords where
  lat : Option JNum := none
  lng : Option JNum := none
deriving DecidableEq, Repr

/-- The AI JSON object as received at runtime: every field optional,
nothing validated beyond what the code checks itself. -/
structure AIResult where
  name : Option String := none
  address : Option String := none
  coordinates : Option AICoords := none
  description : Option String := none
  category : Option String := none
  placeType : Option String := none
deriving DecidableEq, Repr

/-- Outcome of the `generateContent` call in `handleGlobalSearch`:
a rejected call, an empty `response.text` (the code then throws
"No AI response"), a body `JSON.parse` rejects, or a parsed object. -/
inductive AIResponse
  | netErr
  | noText
  | notJson (body : String)
  | json (r : AIResult)
deriving DecidableEq, Repr

/-- One row of a Nominatim search response. -/
structure GeoItem where
  lat : String
  lon : String
  name : Option String := none
  display_name : String := ""
deriving DecidableEq, Repr

/-- Environment: the remote collaborators and the clock.  A geocode
response of `.error` models a rejected `fetch`/`json()`; `.ok []`
covers both an empty array and a `null` body (the code guards both
identically with `geoData && geoData.length > 0`). -/
structure Env where
  ai : AIResponse
  geocode : String → Except Unit (List GeoItem)
  now : Nat

/-- A remote call made during one `handleGlobalSearch` run. -/
inductive RemoteCall
  | aiSearch
  | geo (query : String)
deriving DecidableEq, Repr

/-- Everything one `handleGlobalSearch` run did to the outside world.
`searchResult = some v` means `setSearchResult(v)` was called (with
`v = none` encoding `setSearchResult(null)`); `none` means it was
never called.  Likewise `selectedId` records `setSelectedLocationId`. -/
structure SearchOutcome where
  searchResult : Option (Option Location) := none
  selectedId : Option String := none
  alerts : List String := []
  logs : List String := []
  calls : List RemoteCall := []
deriving DecidableEq, Repr

/-- The tier-0 local match predicate (line 158):
`l.name.toLowerCase().includes(searchQuery.toLowerCase())`. -/
def localPred (q : String) (l : Location) : Bool :=
  jsIncludes (strToLower l.name) (strToLower q)

/-- The terminal not-found alert (line 279). -/
def notFoundMsg (q : String) : String :=
  "Could not find a specific location for \"" ++ q ++ "\"."

/-- The catch-all alert (line 285). -/
def searchFailedMsg : String := "Search failed. Please try again."

/-- The query used by the fallback geocode inside the AI branch
(lines 227-236): `result.address || result.name + " Singapore"`,
overridden by a six-digit postal code found in the address. -/
def aiGeoQuery (r : AIResult) : String :=
  match r.address.bind extractPostal with
  | some code => code ++ " Singapore"
  | none =>
    if jsTruthyStr r.address then r.address.getD ""
    else jsStr r.name ++ " Singapore"

/-- Console line logged before the fallback geocode (lines 233-235). -/
def aiGeoLog (r : AIResult) : String :=
  if (r.address.bind extractPostal).isSome then
    "Geocoding using postal code: " ++ aiGeoQuery r
  else "Geocoding using full address: " ++ aiGeoQuery r

/-- The candidate built from an accepted AI result (lines 248-258). -/
def mkAILoc (searchQuery : String) (r : AIResult) (lat lng : JNum)
    (now : Nat) : Location :=
  { id := "temp-search-result"
    name := jsOrStr r.name searchQuery
    coordinate := ⟨lat, lng⟩
    description := jsOrStr r.description ("Found at " ++ jsStr r.address)
    category := jsOrStr r.category "Hidden Gem"
    placeType := jsOrStr r.placeType "Other"
    image := "https://picsum.photos/seed/" ++ toString now ++ "/600/400"
    visited := some false
    address := r.address }

/-- The candidate built from the tier-2 fallback row (lines 266-275).
Note: `parseFloat` output is stored with no truthiness check here. -/
def mkFallbackLoc (searchQuery : String) (best : GeoItem) (now : Nat) :
    Location :=
  { id := "temp-search-result"
    name := jsOrStr best.name searchQuery
    coordinate := ⟨parseFloat best.lat, parseFloat best.lon⟩
    description := "Found: " ++ best.display_name
    category := "Hidden Gem"
    placeType := "Other"
    image := "https://picsum.photos/seed/" ++ toString now ++ "/600/400"
    visited := some false }

/-- Handler `handleGlobalSearch` (App lines 153-289), as a function of the
environment, the Saved Set and the query. -/
def handleGlobalSearch (env : Env) (locations : List Location)
    (searchQuery : String) : SearchOutcome :=
  if jsTrim searchQuery = "" then {}
  else
    match locations.find? (localPred searchQuery) with
    | some m => { searchResult := some none, selectedId := some m.id }
    | none =>
      match env.ai with
      | .netErr =>
        { alerts := [searchFailedMsg], logs := ["Global search error"],
          calls := [.aiSearch] }
      | .noText =>
        { alerts := [searchFailedMsg], logs := ["Global search error"],
          calls := [.aiSearch] }
      | .notJson _ =>
        { alerts := [searchFailedMsg], logs := ["Global search error"],
          calls := [.aiSearch] }
      | .json r =>
        let lat0 : Option JNum := r.coordinates.bind AICoords.lat
        let lng0 : Option JNum := r.coordinates.bind AICoords.lng
        if jsTruthyNum lat0 && jsTruthyNum lng0 then
          { searchResult := some (some (mkAILoc searchQuery r
              (lat0.getD none) (lng0.getD none) env.now)),
            selectedId := some "temp-search-result",
            calls := [.aiSearch] }
        else
          let q1 := aiGeoQuery r
          let log1 := aiGeoLog r
          match env.geocode q1 with
          | .error _ =>
            { alerts := [searchFailedMsg],
              logs := [log1, "Global search error"],
              calls := [.aiSearch, .geo q1] }
          | .ok items =>
            let lat1 := match items with
              | [] => lat0
              | g :: _ => some (parseFloat g.lat)
            let lng1 := match items with
              | [] => lng0
              | g :: _ => some (parseFloat g.lon)
            if jsTruthyNum lat1 && jsTruthyNum lng1 then
              { searchResult := some (some (mkAILoc searchQuery r
                  (lat1.getD none) (lng1.getD none) env.now)),
                selectedId := some "temp-search-result",
                logs := [log1], calls := [.aiSearch, .geo q1] }
            else
              let q2 := searchQuery ++ " Singapore"
              match env.geocode q2 with
              | .error _ =>
                { alerts := [searchFailedMsg],
                  logs := [log1, "Global search error"],
                  calls := [.aiSearch, .geo q1, .geo q2] }
              | .ok [] =>
                { alerts := [notFoundMsg searchQuery], logs := [log1],
                  calls := [.aiSearch, .geo q1, .geo q2] }
              | .ok (best :: _) =>
                { searchResult := some (some (mkFallbackLoc searchQuery
                    best env.now)),
                  selectedId := some "temp-search-result",
                  logs := [log1],
                  calls := [.aiSearch, .geo q1, .geo q2] }

/-- The `address` sub-object of a Nominatim suggestion
(`SearchBar.tsx`). -/
structure SuggestionAddress where
  amenity : Option String := none
  building : Option String := none
  shop : Option String := none
  tourism : Option String := none
deriving DecidableEq, Repr

/-- Structure `SearchSuggestion` from `SearchBar.tsx` (the `class` field is
spelled `osmClass`, `class` being reserved in Lean). -/
structure SearchSuggestion where
  place_id : Nat
  lat : String
  lon : String
  display_name : String
  name : Option String := none
  type : Option String := none
  osmClass : Option String := none
  address : Option SuggestionAddress := none
deriving DecidableEq, Repr

/-- Name parsing in `handleSuggestionSelect` (lines 120-125):
first comma segment of `display_name`, overridden by
`amenity || building || shop || tourism` when `address` is present. -/
def suggestionName (s : SearchSuggestion) : String :=
  let base := String.mk (s.display_name.data.takeWhile (fun c => c ≠ ','))
  match s.address with
  | some a =>
    jsOrStr (jsOrOpt a.amenity (jsOrOpt a.building (jsOrOpt a.shop a.tourism)))
      base
  | none => base

/-- Type parsing in `handleSuggestionSelect` (lines 127-132). -/
def suggestionType (s : SearchSuggestion) : String :=
  if s.type = some "restaurant" then "Restaurant"
  else if s.type = some "cafe" then "Cafe"
  else if s.type = some "bar" ∨ s.type = some "pub" then "Bar"
  else if s.osmClass = some "tourism" then "Activity"
  else "Other"

/-- What `handleSuggestionSelect` passes to the three setters. -/
structure SelectOutcome where
  searchResult : Location
  selectedId : String
  query : String
deriving DecidableEq, Repr

/-- Handler `handleSuggestionSelect` (App lines 119-151).  The coordinate is
`parseFloat` of the raw strings, stored with no validation. -/
def handleSuggestionSelect (s : SearchSuggestion) : SelectOutcome :=
  let nm := suggestionName s
  let loc : Location :=
    { id := "temp-search-result"
      name := nm
      coordinate := ⟨parseFloat s.lat, parseFloat s.lon⟩
      description := "Found at: " ++ s.display_name
      category := "Hidden Gem"
      placeType := suggestionType s
      image := "https://picsum.photos/seed/" ++ toString s.place_id ++ "/600/400"
      visited := some false
      address := some s.display_name }
  ⟨loc, "temp-search-result", nm⟩

/-- The tag map of an Overpass element (the query guarantees `name`). -/
structure OTags where
  name : String
  amenity : Option String := none
  tourism : Option String := none
deriving DecidableEq, Repr

/-- One Overpass element: a node with a JSON-number coordinate. -/
structure OElem where
  id : Nat
  lat : JNum
  lon : JNum
  tags : OTags
deriving DecidableEq, Repr

/-- Outcome of the Overpass POST in `handleSearchArea`: network/JSON
failure, a non-2xx status (`!response.ok`, thrown then caught), or a
body whose `elements` field may be absent. -/
inductive OverpassResp
  | netErr
  | notOk (status : Nat)
  | ok (elements : Option (List OElem))
deriving DecidableEq, Repr

/-- What one `handleSearchArea` run produced: the value passed to
`setSuggestedLocations` — kept equal to the prior Suggested Set when
the setter is never reached — and the console log lines. -/
structure AreaOutcome where
  suggested : List Location
  logs : List String
deriving DecidableEq, Repr

/-- Inference of `placeType` in `handleSearchArea` (lines 331-338). -/
def inferAreaType (tags : OTags) : String :=
  if tags.amenity = some "restaurant" then "Restaurant"
  else if tags.amenity = some "cafe" then "Cafe"
  else if tags.amenity = some "bar" ∨ tags.amenity = some "pub" then "Bar"
  else if tags.tourism = some "attraction" ∨ tags.tourism = some "museum" then
    "Activity"
  else "Other"

/-- The suggestion Location built from one Overpass element
(lines 340-349); the remote coordinate is copied unchecked. -/
def mkAreaLoc (el : OElem) : Location :=
  { id := "sugg-" ++ toString el.id
    name := el.tags.name
    coordinate := ⟨el.lat, el.lon⟩
    description := "Found nearby. Click to view details or add to your list."
    category := "Hidden Gem"
    placeType := inferAreaType el.tags
    image := "https://picsum.photos/seed/" ++ toString el.id ++ "/600/400"
    visited := some false }

/-- The dedup predicate (lines 326-329): keep an element unless some
saved location's name is strictly (`===`) equal to its name. -/
def areaKeep (locations : List Location) (el : OElem) : Bool :=
  !(locations.any fun l => l.name == el.tags.name)

/-- Handler `handleSearchArea` (App lines 292-362), as a function of the
Overpass response, the Saved Set and the prior Suggested Set. -/
def handleSearchArea (resp : OverpassResp) (locations : List Location)
    (prevSuggested : List Location) : AreaOutcome :=
  match resp with
  | .netErr => ⟨prevSuggested, ["Overpass API error"]⟩
  | .notOk _ => ⟨prevSuggested, ["Overpass API error"]⟩
  | .ok none => ⟨prevSuggested, []⟩
  | .ok (some els) =>
    let news := (els.filter (areaKeep locations)).map mkAreaLoc
    ⟨news, if news.isEmpty then ["No new places found here."] else []⟩

/-- Handler `handleToggleVisited` (App lines 84-88). -/
def handleToggleVisited (id : String) (prev : List Location) :
    List Location :=
  prev.map fun loc =>
    if loc.id = id then { loc with visited := some (!(loc.visited.getD false)) }
    else loc

/-- Query construction in `performGeocode`
(`AddLocationModal.tsx` lines 57-70): postal code wins, then a
non-trivial address, then the name. -/
def performGeocodeQuery (queryName : String) (queryAddress : Option String) :
    String :=
  if jsTruthyStr queryAddress then
    let a := queryAddress.getD ""
    match extractPostal a with
    | some code => code ++ " Singapore"
    | none =>
      if a.length > 5 then a ++ " Singapore" else queryName ++ " Singapore"
  else queryName ++ " Singapore"

/-- The `address` breakdown of a Nominatim reverse response. -/
structure RevAddress where
  amenity : Option String := none
  building : Option String := none
  tourism : Option String := none
  shop : Option String := none
  road : Option String := none
deriving DecidableEq, Repr

/-- A Nominatim reverse response body. -/
structure RevData where
  name : Option String := none
  address : Option RevAddress := none
deriving DecidableEq, Repr

/-- Name preference in `performReverseGeocode`
(`AddLocationModal.tsx` lines 114-121):
`name || amenity || building || tourism || shop || road || "Unknown Location"`. -/
def revPlaceName (d : RevData) : String :=
  jsOrStr
    (jsOrOpt d.name
      (jsOrOpt (d.address.bind RevAddress.amenity)
        (jsOrOpt (d.address.bind RevAddress.building)
          (jsOrOpt (d.address.bind RevAddress.tourism)
            (jsOrOpt (d.address.bind RevAddress.shop)
              (d.address.bind RevAddress.road))))))
    "Unknown Location"

/-- Type inference in `performReverseGeocode` (lines 126-128): only
`restaurant`, `cafe` and `bar` are mapped; anything else leaves the
current value in place. -/
def revPlaceType (d : RevData) (current : String) : String :=
  let amenity := d.address.bind RevAddress.amenity
  if amenity = some "restaurant" then "Restaurant"
  else if amenity = some "cafe" then "Cafe"
  else if amenity = some "bar" then "Bar"
  else current

/-- Handler `performReverseGeocode` (`AddLocationModal.tsx` lines 108-135) as
the (name, placeType) state pair it leaves behind;
`.error` models a rejected fetch, `.ok none` a null body. -/
def performReverseGeocode (resp : Except Unit (Option RevData))
    (curName curType : String) : String × String :=
  match resp with
  | .error _ => (curName, curType)
  | .ok none => (curName, curType)
  | .ok (some d) => (revPlaceName d, revPlaceType d curType)

/-! ## Concrete fixtures used by witnesses and counterexamples -/

/-- Environment whose remote services all come back empty-handed. -/
def emptyEnv : Env := { ai := .netErr, geocode := fun _ => .ok [], now := 0 }

/-- Saved place mirroring the "Tiong Bahru Bakery" mock location. -/
def tbbLoc : Location :=
  { id := "3", name := "Tiong Bahru Bakery", coordinate := ⟨some 1, some 103⟩
    description := "Famous for croissants.", category := "Hidden Gem"
    placeType := "Cafe", image := "img", visited := some false }

/-- Saved place used by the toggle-visited witness. -/
def locA : Location :=
  { id := "1", name := "Lazarus Island", coordinate := ⟨some 1, some 103⟩
    description := "beach", category := "Hidden Gem", placeType := "Activity"
    image := "img", visited := some false }

/-- Second saved place used by the toggle-visited witness. -/
def locB : Location :=
  { id := "2", name := "Merlion Park", coordinate := ⟨some 1, some 103⟩
    description := "merlion", category := "Tourist Trap", placeType := "Activity"
    image := "img" }

/-- Autocomplete row whose `lat` is not numeric (`parseFloat` gives `NaN`). -/
def badSuggestion : SearchSuggestion :=
  { place_id := 7, lat := "abc", lon := "103", display_name := "Mystery Spot, Singapore" }

/-- Overpass element carrying an out-of-range finite coordinate. -/
def farElem : OElem :=
  { id := 9, lat := some 1000, lon := some 200, tags := { name := "Far Away" } }

/-- Overpass element named exactly like the saved "Merlion Park". -/
def merlionElem : OElem :=
  { id := 21, lat := some 1, lon := some 103, tags := { name := "Merlion Park" } }

/-- Overpass element differing from the saved name only in case. -/
def merlionLowerElem : OElem :=
  { id := 22, lat := some 1, lon := some 103, tags := { name := "merlion park" } }

/-- AI result with a finite-but-zero latitude. -/
def zeroCoordResult : AIResult :=
  { name := some "Zero Island", address := some "Nowhere St"
    coordinates := some { lat := some (some 0), lng := some (some 103) } }

/-- Environment returning `zeroCoordResult` and empty directory rows. -/
def zeroEnv : Env :=
  { ai := .json zeroCoordResult, geocode := fun _ => .ok [], now := 0 }

/-- Environment whose AI body does not parse as JSON. -/
def notJsonEnv : Env :=
  { ai := .notJson "I could not find it", geocode := fun _ => .ok [], now := 0 }

/-- AI result that is valid JSON but carries no coordinates. -/
def ghostResult : AIResult := { name := some "Ghost Cafe" }

/-- Environment for the terminal-NotFound scenario: schema-valid AI
body without coordinates, empty directory at every query. -/
def ghostEnv : Env :=
  { ai := .json ghostResult, geocode := fun _ => .ok [], now := 0 }

/-- AI result with truthy finite coordinates. -/
def acceptResult : AIResult :=
  { name := some "Nice Spot"
    coordinates := some { lat := some (some 2), lng := some (some 103) } }

/-- Environment returning `acceptResult`. -/
def acceptEnv : Env :=
  { ai := .json acceptResult, geocode := fun _ => .ok [], now := 0 }

/-- Reverse-geocode body whose amenity is a pub. -/
def pubRev : RevData := { address := some { amenity := some "pub" } }

/-- Reverse-geocode body whose amenity is a restaurant. -/
def restRev : RevData := { address := some { amenity := some "restaurant" } }

/-! ## Theorems -/

/-- C2: for every non-empty query, if some saved place's name contains
the query as a case-insensitive substring, `handleGlobalSearch` selects
the first such place in Saved Set order (`List.find?` yields the first
hit), clears the temporary search result, raises no alert, and performs
zero remote calls. -/
theorem localMatch_shortCircuit (env : Env) (locations : List Location)
    (q : String) (m : Location)
    (hq : jsTrim q ≠ "")
    (hm : locations.find? (localPred q) = some m) :
    m ∈ locations ∧ localPred q m = true ∧
    (handleGlobalSearch env locations q).selectedId = some m.id ∧
    (handleGlobalSearch env locations q).searchResult = some none ∧
    (handleGlobalSearch env locations q).calls = [] ∧
    (handleGlobalSearch env locations q).alerts = [] := by
  have hout : handleGlobalSearch env locations q =
      { searchResult := some none, selectedId := some m.id } := by
    unfold handleGlobalSearch
    rw [if_neg hq, hm]
  exact ⟨List.mem_of_find?_eq_some hm, List.find?_some hm,
    by rw [hout], by rw [hout], by rw [hout], by rw [hout]⟩

/-- Witness for C2 at the "Tiong Bahru Bakery" example. -/
theorem localMatch_shortCircuit_witness :
    tbbLoc ∈ [tbbLoc] ∧ localPred "Tiong Bahru Bakery" tbbLoc = true ∧
    (handleGlobalSearch emptyEnv [tbbLoc] "Tiong Bahru Bakery").selectedId =
      some "3" ∧
    (handleGlobalSearch emptyEnv [tbbLoc] "Tiong Bahru Bakery").searchResult =
      some none ∧
    (handleGlobalSearch emptyEnv [tbbLoc] "Tiong Bahru Bakery").calls = [] ∧
    (handleGlobalSearch emptyEnv [tbbLoc] "Tiong Bahru Bakery").alerts = [] :=
  localMatch_shortCircuit emptyEnv [tbbLoc] "Tiong Bahru Bakery" tbbLoc
    (by decide) (by decide)

/-- Keeping an element through the Dedup Filter means no saved name
equals its name. -/
lemma areaKeep_eq_true_iff (locations : List Location) (el : OElem) :
    areaKeep locations el = true ↔ ∀ l ∈ locations, l.name ≠ el.tags.name := by
  simp [areaKeep, List.any_eq_false]

/-- C7: an Overpass element is excluded from the Suggested Set iff some
saved place's name is exactly (case-sensitively) equal to its name; in
particular a case-variant of a saved name is not excluded. -/
theorem dedup_excludes_iff_exact_name (els : List OElem)
    (locations prev : List Location) (el : OElem) (hel : el ∈ els) :
    (¬ ∃ loc ∈ (handleSearchArea (.ok (some els)) locations prev).suggested,
        loc.name = el.tags.name) ↔
      ∃ l ∈ locations, l.name = el.tags.name := by
  have hsug : (handleSearchArea (.ok (some els)) locations prev).suggested =
      (els.filter (areaKeep locations)).map mkAreaLoc := rfl
  constructor
  · intro h
    by_contra hno
    push_neg at hno
    apply h
    refine ⟨mkAreaLoc el, ?_, rfl⟩
    rw [hsug]
    exact List.mem_map_of_mem mkAreaLoc
      (List.mem_filter.mpr ⟨hel, (areaKeep_eq_true_iff locations el).mpr hno⟩)
  · rintro ⟨l, hl, hname⟩ ⟨loc, hloc, hn⟩
    rw [hsug] at hloc
    obtain ⟨el2, hel2, rfl⟩ := List.mem_map.mp hloc
    have hkeep := (List.mem_filter.mp hel2).2
    exact (areaKeep_eq_true_iff locations el2).mp hkeep l hl
      (hname.trans hn.symm)

/-- Witness for C7: with "Merlion Park" saved, the identically named
element is excluded while the lower-case variant survives. -/
theorem dedup_excludes_witness :
    (¬ ∃ loc ∈ (handleSearchArea (.ok (some [merlionElem, merlionLowerElem]))
        [locB] []).suggested, loc.name = merlionElem.tags.name) ∧
    (∃ loc ∈ (handleSearchArea (.ok (some [merlionElem, merlionLowerElem]))
        [locB] []).suggested, loc.name = merlionLowerElem.tags.name) := by
  constructor
  · exact (dedup_excludes_iff_exact_name _ [locB] [] merlionElem
      (by decide)).mpr ⟨locB, by decide, by decide⟩
  · by_contra h
    have := (dedup_excludes_iff_exact_name _ [locB] [] merlionLowerElem
      (by decide)).mp h
    revert this
    decide

/-- C8 (amended): a 2xx response with zero elements wholesale-replaces
the Suggested Set with the empty list (with a log line); a non-2xx or
failed response logs the error and leaves the prior Suggested Set in
place. -/
theorem area_failure_states (locations prev : List Location) (status : Nat) :
    (handleSearchArea (.notOk status) locations prev).suggested = prev ∧
    "Overpass API error" ∈
      (handleSearchArea (.notOk status) locations prev).logs ∧
    (handleSearchArea (.ok (some [])) locations prev).suggested = [] ∧
    "No new places found here." ∈
      (handleSearchArea (.ok (some [])) locations prev).logs ∧
    (handleSearchArea .netErr locations prev).suggested = prev :=
  ⟨rfl, by simp [handleSearchArea], rfl, by simp [handleSearchArea], rfl⟩

/-- Counterexample to C8 as stated: after a non-2xx response the
Suggested Set is not empty — the prior suggestions survive untouched. -/
theorem area_nonOk_counterexample :
    (handleSearchArea (.notOk 500) [] [locA]).suggested = [locA] ∧
    ([locA] : List Location) ≠ [] :=
  ⟨rfl, by decide⟩

/-- C9 (amended): reverse geocoding maps amenity `restaurant`, `cafe`
and `bar` to the corresponding place types; any other amenity value —
`pub` included — leaves the current placeType unchanged. -/
theorem reverse_type_mapping (d : RevData) (n cur : String) :
    (d.address.bind RevAddress.amenity = some "restaurant" →
      (performReverseGeocode (.ok (some d)) n cur).2 = "Restaurant") ∧
    (d.address.bind RevAddress.amenity = some "cafe" →
      (performReverseGeocode (.ok (some d)) n cur).2 = "Cafe") ∧
    (d.address.bind RevAddress.amenity = some "bar" →
      (performReverseGeocode (.ok (some d)) n cur).2 = "Bar") ∧
    (d.address.bind RevAddress.amenity ≠ some "restaurant" →
      d.address.bind RevAddress.amenity ≠ some "cafe" →
      d.address.bind RevAddress.amenity ≠ some "bar" →
      (performReverseGeocode (.ok (some d)) n cur).2 = cur) := by
  refine ⟨fun h => ?_, fun h => ?_, fun h => ?_, fun h1 h2 h3 => ?_⟩
  · simp [performReverseGeocode, revPlaceType, h]
  · simp [performReverseGeocode, revPlaceType, h]
  · simp [performReverseGeocode, revPlaceType, h]
  · simp [performReverseGeocode, revPlaceType, h1, h2, h3]

/-- Counterexample to C9 as stated: amenity `pub` is not mapped to Bar;
the placeType stays at its prior value. -/
theorem reverse_pub_counterexample :
    (performReverseGeocode (.ok (some pubRev)) "" "Other").2 = "Other" ∧
    ("Other" : String) ≠ "Bar" :=
  ⟨rfl, by decide⟩

/-- Witness for C9 (amended) at concrete amenities. -/
theorem reverse_type_mapping_witness :
    (performReverseGeocode (.ok (some restRev)) "" "Other").2 = "Restaurant" ∧
    (performReverseGeocode (.ok (some pubRev)) "" "Other").2 = "Other" :=
  ⟨(reverse_type_mapping restRev "" "Other").1 (by decide),
   (reverse_type_mapping pubRev "" "Other").2.2.2
     (by decide) (by decide) (by decide)⟩

/-- C10: toggle-visited preserves length and order, rewrites only the
`visited` field of entries whose id matches, and is the identity when
no entry has the id. -/
theorem toggleVisited_frame (prev : List Location) (id : String) :
    (handleToggleVisited id prev).length = prev.length ∧
    (∀ i (hi : i < prev.length)
      (hi2 : i < (handleToggleVisited id prev).length),
      (handleToggleVisited id prev).get ⟨i, hi2⟩ =
        { prev.get ⟨i, hi⟩ with
          visited :=
            if (prev.get ⟨i, hi⟩).id = id then
              some (!((prev.get ⟨i, hi⟩).visited.getD false))
            else (prev.get ⟨i, hi⟩).visited }) ∧
    ((∀ l ∈ prev, l.id ≠ id) → handleToggleVisited id prev = prev) := by
  refine ⟨by simp [handleToggleVisited], ?_, ?_⟩
  · intro i hi hi2
    have hmap : (handleToggleVisited id prev).get ⟨i, hi2⟩ =
        (fun loc => if loc.id = id then
            { loc with visited := some (!(loc.visited.getD false)) }
          else loc) (prev.get ⟨i, hi⟩) := by
      simp [handleToggleVisited, List.get_eq_getElem, List.getElem_map]
    rw [hmap]
    by_cases h : (prev.get ⟨i, hi⟩).id = id
    · simp only [if_pos h]
    · simp only [if_neg h]
  · intro hall
    have haux : ∀ l : List Location, (∀ x ∈ l, x.id ≠ id) →
        handleToggleVisited id l = l := by
      intro l
      induction l with
      | nil => intro _; rfl
      | cons a t ih =>
        intro h
        have ha : a.id ≠ id := h a (List.mem_cons_self a t)
        have ht := ih fun x hx => h x (List.mem_cons_of_mem a hx)
        simp only [handleToggleVisited, List.map_cons, if_neg ha] at ht ⊢
        rw [ht]
    exact haux prev hall

/-- Witness for C10 on a two-element Saved Set: only the matching
entry's `visited` flips. -/
theorem toggleVisited_frame_witness :
    (handleToggleVisited "2" [locA, locB]).length = 2 ∧
    (handleToggleVisited "2" [locA, locB]).get ⟨0, by decide⟩ = locA ∧
    (handleToggleVisited "2" [locA, locB]).get ⟨1, by decide⟩ =
      { locB with visited := some true } := by
  obtain ⟨hlen, hidx, -⟩ := toggleVisited_frame [locA, locB] "2"
  refine ⟨hlen, ?_, ?_⟩
  · have h := hidx 0 (by decide) (by decide)
    simpa [locA, locB] using h
  · have h := hidx 1 (by decide) (by decide)
    simpa [locA, locB] using h

/-- In the AI branch without usable coordinates, the trace starts with
the AI call followed by a directory call on `aiGeoQuery r`. -/
lemma json_noCoords_calls (env : Env) (locations : List Location)
    (q : String) (r : AIResult)
    (hq : jsTrim q ≠ "")
    (hl : locations.find? (localPred q) = none)
    (hai : env.ai = .json r)
    (hco : (jsTruthyNum (r.coordinates.bind AICoords.lat) &&
        jsTruthyNum (r.coordinates.bind AICoords.lng)) = false) :
    ∃ tail, (handleGlobalSearch env locations q).calls =
      RemoteCall.aiSearch :: RemoteCall.geo (aiGeoQuery r) :: tail := by
  unfold handleGlobalSearch
  rw [if_neg hq, hl, hai]
  dsimp only
  rw [hco]
  simp only [Bool.false_eq_true, if_false]
  split
  · exact ⟨_, rfl⟩
  · split
    · exact ⟨_, rfl⟩
    · split
      · exact ⟨_, rfl⟩
      · exact ⟨_, rfl⟩
      · exact ⟨_, rfl⟩

/-- When both AI coordinates are truthy, the accept branch fires. -/
lemma accept_branch_outcome (env : Env) (locations : List Location)
    (q : String) (r : AIResult)
    (hq : jsTrim q ≠ "")
    (hl : locations.find? (localPred q) = none)
    (hai : env.ai = .json r)
    (hco : (jsTruthyNum (r.coordinates.bind AICoords.lat) &&
        jsTruthyNum (r.coordinates.bind AICoords.lng)) = true) :
    handleGlobalSearch env locations q =
      { searchResult := some (some (mkAILoc q r
          ((r.coordinates.bind AICoords.lat).getD none)
          ((r.coordinates.bind AICoords.lng).getD none) env.now)),
        selectedId := some "temp-search-result",
        calls := [RemoteCall.aiSearch] } := by
  unfold handleGlobalSearch
  rw [if_neg hq, hl, hai]
  dsimp only
  rw [hco]
  simp

/-- Truthiness of a JS number means a finite nonzero value. -/
lemma jsTruthyNum_eq_true_iff (v : Option JNum) :
    jsTruthyNum v = true ↔ ∃ a : ℚ, v = some (some a) ∧ a ≠ 0 := by
  cases v with
  | none => simp [jsTruthyNum]
  | some w =>
    cases w with
    | none => simp [jsTruthyNum]
    | some a => simp [jsTruthyNum]

/-- C3 (amended): when the AI body parses as JSON but yields no usable
coordinates, the pipeline proceeds to the Geocoding-Directory tier;
with no address present the directory query is `"<name> Singapore"`. -/
theorem schemaInvalid_proceeds_to_directory (env : Env)
    (locations : List Location) (q : String) (r : AIResult) (n : String)
    (hq : jsTrim q ≠ "")
    (hl : locations.find? (localPred q) = none)
    (hai : env.ai = .json r)
    (hco : (jsTruthyNum (r.coordinates.bind AICoords.lat) &&
        jsTruthyNum (r.coordinates.bind AICoords.lng)) = false)
    (haddr : r.address = none) (hname : r.name = some n) :
    aiGeoQuery r = n ++ " Singapore" ∧
    RemoteCall.geo (n ++ " Singapore") ∈
      (handleGlobalSearch env locations q).calls := by
  have hqy : aiGeoQuery r = n ++ " Singapore" := by
    simp [aiGeoQuery, haddr, hname, jsTruthyStr, jsStr]
  obtain ⟨tail, htl⟩ := json_noCoords_calls env locations q r hq hl hai hco
  rw [hqy] at htl
  refine ⟨hqy, ?_⟩
  rw [htl]
  simp

/-- Witness for C3 (amended) on the Ghost Cafe scenario. -/
theorem schemaInvalid_proceeds_witness :
    aiGeoQuery ghostResult = "Ghost Cafe Singapore" ∧
    RemoteCall.geo "Ghost Cafe Singapore" ∈
      (handleGlobalSearch ghostEnv [] "Ghost Cafe").calls :=
  schemaInvalid_proceeds_to_directory ghostEnv [] "Ghost Cafe" ghostResult
    "Ghost Cafe" (by decide) rfl rfl (by decide) rfl rfl

/-- Counterexample to C3 as stated: a non-JSON AI body is raised to the
user as a fatal "Search failed" alert and the Geocoding-Directory tier
is never reached (the only remote call is the AI one). -/
theorem nonJson_fatal_counterexample :
    (handleGlobalSearch notJsonEnv [] "Ghost Cafe").alerts =
      [searchFailedMsg] ∧
    (handleGlobalSearch notJsonEnv [] "Ghost Cafe").calls =
      [RemoteCall.aiSearch] :=
  ⟨by decide, by decide⟩

/-- C4 (amended): when both AI coordinates are truthy (finite and
nonzero), the result is accepted directly and no geocoding lookup is
performed — the AI call is the only remote call. -/
theorem truthyCoords_accepted_directly (env : Env)
    (locations : List Location) (q : String) (r : AIResult)
    (hq : jsTrim q ≠ "")
    (hl : locations.find? (localPred q) = none)
    (hai : env.ai = .json r)
    (hco : (jsTruthyNum (r.coordinates.bind AICoords.lat) &&
        jsTruthyNum (r.coordinates.bind AICoords.lng)) = true) :
    (handleGlobalSearch env locations q).calls = [RemoteCall.aiSearch] ∧
    (handleGlobalSearch env locations q).searchResult =
      some (some (mkAILoc q r ((r.coordinates.bind AICoords.lat).getD none)
        ((r.coordinates.bind AICoords.lng).getD none) env.now)) := by
  have hout := accept_branch_outcome env locations q r hq hl hai hco
  exact ⟨by rw [hout], by rw [hout]⟩

/-- Witness for C4 (amended) at a finite nonzero coordinate. -/
theorem truthyCoords_accepted_witness :
    (handleGlobalSearch acceptEnv [] "Nice Spot").calls =
      [RemoteCall.aiSearch] ∧
    (handleGlobalSearch acceptEnv [] "Nice Spot").searchResult =
      some (some (mkAILoc "Nice Spot" acceptResult (some 2) (some 103) 0)) :=
  truthyCoords_accepted_directly acceptEnv [] "Nice Spot" acceptResult
    (by decide) rfl rfl (by decide)

/-- Counterexample to C4 as stated: latitude `0` is a finite number,
yet the code's truthiness test sends the pipeline to the geocoder. -/
theorem zeroCoord_triggers_geocode_counterexample :
    zeroCoordResult.coordinates.bind AICoords.lat = some (some (0 : ℚ)) ∧
    zeroCoordResult.coordinates.bind AICoords.lng = some (some (103 : ℚ)) ∧
    RemoteCall.geo "Nowhere St" ∈
      (handleGlobalSearch zeroEnv [] "Zero Island").calls :=
  ⟨rfl, rfl, by decide⟩

/-- C6: with a non-empty query, no local match, a schema-valid AI body
without usable coordinates, and empty directory results at both the
tier-1 and the tier-2 query, the run ends NotFound: no candidate is
created, no selection is made, exactly one "not found" alert is raised,
and each tier is called exactly once. -/
theorem exhausted_tiers_notFound (env : Env) (locations : List Location)
    (q : String) (r : AIResult)
    (hq : jsTrim q ≠ "")
    (hl : locations.find? (localPred q) = none)
    (hai : env.ai = .json r)
    (hco : (jsTruthyNum (r.coordinates.bind AICoords.lat) &&
        jsTruthyNum (r.coordinates.bind AICoords.lng)) = false)
    (hg1 : env.geocode (aiGeoQuery r) = .ok [])
    (hg2 : env.geocode (q ++ " Singapore") = .ok []) :
    (handleGlobalSearch env locations q).searchResult = none ∧
    (handleGlobalSearch env locations q).selectedId = none ∧
    (handleGlobalSearch env locations q).alerts = [notFoundMsg q] ∧
    (handleGlobalSearch env locations q).calls =
      [RemoteCall.aiSearch, RemoteCall.geo (aiGeoQuery r),
       RemoteCall.geo (q ++ " Singapore")] := by
  have hout : handleGlobalSearch env locations q =
      { alerts := [notFoundMsg q], logs := [aiGeoLog r],
        calls := [RemoteCall.aiSearch, RemoteCall.geo (aiGeoQuery r),
          RemoteCall.geo (q ++ " Singapore")] } := by
    unfold handleGlobalSearch
    rw [if_neg hq, hl, hai]
    dsimp only
    rw [hco]
    simp only [Bool.false_eq_true, if_false]
    rw [hg1]
    dsimp only
    rw [hco]
    simp only [Bool.false_eq_true, if_false]
    rw [hg2]
  exact ⟨by rw [hout], by rw [hout], by rw [hout], by rw [hout]⟩

/-- Witness for C6 on the Ghost Cafe scenario. -/
theorem exhausted_tiers_notFound_witness :
    (handleGlobalSearch ghostEnv [] "Ghost Cafe").searchResult = none ∧
    (handleGlobalSearch ghostEnv [] "Ghost Cafe").selectedId = none ∧
    (handleGlobalSearch ghostEnv [] "Ghost Cafe").alerts =
      [notFoundMsg "Ghost Cafe"] ∧
    (handleGlobalSearch ghostEnv [] "Ghost Cafe").calls =
      [RemoteCall.aiSearch, RemoteCall.geo "Ghost Cafe Singapore",
       RemoteCall.geo "Ghost Cafe Singapore"] :=
  exhausted_tiers_notFound ghostEnv [] "Ghost Cafe" ghostResult
    (by decide) rfl rfl (by decide) rfl rfl

/-- C1 (amended): a candidate accepted from the Structured-Knowledge
tier always carries a finite, nonzero coordinate pair. -/
theorem aiAccept_coords_finite_nonzero (env : Env)
    (locations : List Location) (q : String) (r : AIResult)
    (hq : jsTrim q ≠ "")
    (hl : locations.find? (localPred q) = none)
    (hai : env.ai = .json r)
    (hco : (jsTruthyNum (r.coordinates.bind AICoords.lat) &&
        jsTruthyNum (r.coordinates.bind AICoords.lng)) = true) :
    ∃ loc : Location, ∃ a b : ℚ,
      (handleGlobalSearch env locations q).searchResult = some (some loc) ∧
      loc.coordinate = ⟨some a, some b⟩ ∧ a ≠ 0 ∧ b ≠ 0 := by
  have hand := hco
  rw [Bool.and_eq_true] at hand
  obtain ⟨hlat, hlng⟩ := hand
  obtain ⟨a, hva, ha⟩ := (jsTruthyNum_eq_true_iff _).mp hlat
  obtain ⟨b, hvb, hb⟩ := (jsTruthyNum_eq_true_iff _).mp hlng
  have hout := accept_branch_outcome env locations q r hq hl hai hco
  rw [hva, hvb] at hout
  simp only [Option.getD_some] at hout
  exact ⟨mkAILoc q r (some a) (some b) env.now, a, b, by rw [hout], rfl,
    ha, hb⟩

/-- Witness for C1 (amended) at a finite nonzero coordinate. -/
theorem aiAccept_coords_witness :
    ∃ loc : Location, ∃ a b : ℚ,
      (handleGlobalSearch acceptEnv [] "Nice Spot").searchResult =
        some (some loc) ∧
      loc.coordinate = ⟨some a, some b⟩ ∧ a ≠ 0 ∧ b ≠ 0 :=
  aiAccept_coords_finite_nonzero acceptEnv [] "Nice Spot" acceptResult
    (by decide) rfl rfl (by decide)

/-- Counterexample to C1 as stated: suggestion selection materializes a
record whose latitude is `NaN` (no finiteness check), and area
discovery materializes one whose latitude `1000` is far outside
`[-90, 90]` (no range check). -/
theorem coord_invariant_counterexample :
    (handleSuggestionSelect badSuggestion).searchResult.coordinate.lat =
      none ∧
    ∃ loc ∈ (handleSearchArea (.ok (some [farElem])) [] []).suggested,
      loc.coordinate.lat = some 1000 ∧
      ¬((-90 : ℚ) ≤ 1000 ∧ (1000 : ℚ) ≤ 90) :=
  ⟨rfl, mkAreaLoc farElem, by decide, rfl, by decide⟩

/-- A six-digit window at the head of the list is matched verbatim. -/
lemma findSixDigits_head (t r : List Char) (h6 : t.length = 6)
    (hd : ∀ c ∈ t, c.isDigit = true) :
    findSixDigits (t ++ r) = some t := by
  cases t with
  | nil => exact absurd h6 (by simp)
  | cons c ts =>
    have htake : (c :: (ts ++ r)).take 6 = c :: ts := by
      have h := List.take_left (c :: ts) r
      rw [h6] at h
      simpa using h
    show findSixDigits (c :: (ts ++ r)) = some (c :: ts)
    rw [findSixDigits, htake, if_pos ⟨h6, List.all_eq_true.mpr hd⟩]

/-- Lists containing a six-digit window always produce a match: the
matched text is six digits long, all digits, and an infix of the
scanned list. -/
lemma findSixDigits_some (l t r : List Char) (h6 : t.length = 6)
    (hd : ∀ c ∈ t, c.isDigit = true) :
    ∃ w, findSixDigits (l ++ (t ++ r)) = some w ∧ w.length = 6 ∧
      (∀ c ∈ w, c.isDigit = true) ∧ w <:+: l ++ (t ++ r) := by
  induction l with
  | nil =>
    refine ⟨t, by simpa using findSixDigits_head t r h6 hd, h6, hd, ?_⟩
    exact ⟨[], r, by simp⟩
  | cons a l ih =>
    obtain ⟨w, hw, hw6, hwd, hinf⟩ := ih
    by_cases hc : ((a :: (l ++ (t ++ r))).take 6).length = 6 ∧
        ((a :: (l ++ (t ++ r))).take 6).all Char.isDigit
    · refine ⟨(a :: (l ++ (t ++ r))).take 6, ?_, hc.1, ?_, ?_⟩
      · show findSixDigits (a :: (l ++ (t ++ r))) = _
        rw [findSixDigits, if_pos hc]
      · exact fun c hcm => List.all_eq_true.mp hc.2 c hcm
      · exact (List.take_prefix 6 _).isInfix
    · refine ⟨w, ?_, hw6, hwd, List.infix_cons hinf⟩
      show findSixDigits (a :: (l ++ (t ++ r))) = some w
      rw [findSixDigits, if_neg hc]
      exact hw

/-- C5: whenever the address string contains six consecutive digits,
the precision-hint extractor yields such a token (the leftmost one, an
infix of the address), and both directory-query builders use
`"<token> Singapore"`; in particular the Joo Chiat example extracts
`"427630"` and queries `"427630 Singapore"`. -/
theorem postal_extraction_and_query (addr : String)
    (h : ∃ l t r, addr.data = l ++ (t ++ r) ∧ t.length = 6 ∧
      ∀ c ∈ t, c.isDigit = true) :
    (∃ tok, extractPostal addr = some tok ∧ tok.length = 6 ∧
      (∀ c ∈ tok.data, c.isDigit = true) ∧ tok.data <:+: addr.data ∧
      (∀ qn, performGeocodeQuery qn (some addr) = tok ++ " Singapore") ∧
      (∀ r : AIResult, r.address = some addr →
        aiGeoQuery r = tok ++ " Singapore")) ∧
    extractPostal "376 Joo Chiat Rd, Singapore 427630" = some "427630" ∧
    performGeocodeQuery "376 Joo Chiat Rd"
      (some "376 Joo Chiat Rd, Singapore 427630") = "427630 Singapore" := by
  obtain ⟨l, t, r, heq, h6, hd⟩ := h
  obtain ⟨w, hw, hw6, hwd, hinf⟩ := findSixDigits_some l t r h6 hd
  have hfind : findSixDigits addr.data = some w := by rw [heq]; exact hw
  have hex : extractPostal addr = some (String.mk w) := by
    rw [extractPostal, hfind]; rfl
  have hne : addr ≠ "" := by
    intro h0
    have hnil : ([] : List Char) = l ++ (t ++ r) := by
      rw [← heq, h0]
    obtain ⟨-, htr⟩ := List.append_eq_nil.mp hnil.symm
    obtain ⟨ht, -⟩ := List.append_eq_nil.mp htr
    rw [ht] at h6
    exact absurd h6 (by decide)
  have htru : jsTruthyStr (some addr) = true := by
    simp [jsTruthyStr, hne]
  refine ⟨⟨String.mk w, hex, hw6, hwd, by rw [heq]; exact hinf,
    ?_, ?_⟩, by decide, by decide⟩
  · intro qn
    simp [performGeocodeQuery, htru, hex]
  · intro rr hrr
    simp [aiGeoQuery, hrr, hex]

/-- Witness for C5 at the Joo Chiat address. -/
theorem postal_extraction_witness :
    ∃ tok, extractPostal "376 Joo Chiat Rd, Singapore 427630" = some tok ∧
      tok.length = 6 ∧ (∀ c ∈ tok.data, c.isDigit = true) ∧
      tok.data <:+: ("376 Joo Chiat Rd, Singapore 427630" : String).data ∧
      (∀ qn, performGeocodeQuery qn
        (some "376 Joo Chiat Rd, Singapore 427630") = tok ++ " Singapore") ∧
      (∀ r : AIResult, r.address = some "376 Joo Chiat Rd, Singapore 427630" →
        aiGeoQuery r = tok ++ " Singapore") :=
  (postal_extraction_and_query "376 Joo Chiat Rd, Singapore 427630"
    ⟨"376 Joo Chiat Rd, Singapore ".data, "427630".data, [],
      by decide, by decide, by decide⟩).1
